import Mathlib

/-!
Verification of the frame-bridge messaging library.

This file shallowly embeds the core of the library:
`OriginValidator` (src/shared/OriginValidator.js), the message
correlation engine `BaseMessenger` (src/shared/BaseMessenger.js),
the id generator `generateMessageId` (src/shared/utils.js),
`ChildMessenger.sendToParent` / `announce` (src/child/ChildMessenger.js),
`ParentMessenger.sendToAllChildren` and the registry-affecting handlers,
and `IframeRegistry` (src/parent/IframeRegistry.js).
All definitions are executable translations of the JavaScript source;
theorems settle the specification claims about them.
-/

/-- Embedding of the matcher produced by
`OriginValidator.createPatternRegex` followed by `RegExp.test`.
The source escapes every regex metacharacter except `*` and replaces
each `*` by `.*`, anchoring with `^...$`; the resulting regex matches a
string exactly when the string decomposes into the literal segments of
the pattern with arbitrary gap content (no line terminators, since a
JavaScript `.` does not match them) at each `*`.  `globMatch p s` decides
that relation on character lists. -/
def gapChar (c : Char) : Bool :=
  !(c == '\n' || c == '\r' ||
    c == (Char.ofNat 0x2028) || c == (Char.ofNat 0x2029))

/-- Helper for `globMatch`: try the continuation `k` (the rest of the
pattern) at every suffix of the string reachable by letting the `.*` gap
consume gap characters. -/
def starLoop (k : List Char → Bool) : List Char → Bool
  | [] => k []
  | c :: s => k (c :: s) || (gapChar c && starLoop k s)

def globMatch : List Char → List Char → Bool
  | [], s => s.isEmpty
  | p :: ps, s =>
      if p == '*' then
        starLoop (globMatch ps) s
      else
        match s with
        | [] => false
        | c :: s1 => p == c && globMatch ps s1

/-- Embedding of `OriginValidator.createPatternRegex(pattern).test(origin)`
at the string level. -/
def patternTest (pattern origin : String) : Bool :=
  globMatch pattern.toList origin.toList

/-- The possible JavaScript values passed as `allowedOrigins` to the
`OriginValidator` constructor: `null`, an array of strings, or any other
(malformed) value. -/
inductive OriginsArg where
  | null : OriginsArg
  | arr : List String → OriginsArg
  | malformed : OriginsArg
deriving DecidableEq, Repr

/-- Embedding of the `OriginValidator` constructor
(src/shared/OriginValidator.js lines 12-27): `null` and empty or
non-array values resolve to the singleton list holding
`window.location.origin` (written `selfOrigin` here); a non-empty array
is kept as is. -/
def resolveAllowedOrigins (allowedOrigins : OriginsArg) (selfOrigin : String) :
    List String :=
  match allowedOrigins with
  | .null => [selfOrigin]
  | .arr l => if l.length > 0 then l else [selfOrigin]
  | .malformed => [selfOrigin]

/-- Embedding of `OriginValidator.validate`
(src/shared/OriginValidator.js lines 34-61): wildcard entry `"*"`
accepts everything; otherwise some entry must match exactly or, when the
entry contains a `*` character, match as a compiled wildcard pattern. -/
def validate (allowedOrigins : List String) (origin : String) : Bool :=
  if allowedOrigins.contains "*" then
    true
  else
    allowedOrigins.any fun allowed =>
      if allowed == origin then true
      else if allowed.toList.contains '*' then patternTest allowed origin
      else false

/-! Error message constants from src/shared/constants.js (`ERRORS`). -/

def ORIGIN_MISMATCH : String := "Message origin does not match allowed origins"

def MESSAGE_TIMEOUT_MSG : String := "Message timed out waiting for response"

def NO_CHILD_WINDOW : String := "No child window registered"

def INVALID_ACTION : String := "No handler found for action"

def ANNOUNCE_FAILED : String := "Failed to announce to parent after retries"

/-! Default configuration constants from src/shared/constants.js (`DEFAULTS`). -/

def ANNOUNCE_RETRIES : Nat := 3

def ANNOUNCE_RETRY_DELAY : Nat := 500

/-- A JavaScript value travelling through the protocol, reduced to the
distinctions the claims need: an opaque structured value, or an object
literal of shape `\x7b error: msg \x7d` (the error descriptor built by
`handleAction` / `handleMessage`). -/
inductive Payload where
  | value : String → Payload
  | errObj : String → Payload
deriving DecidableEq, Repr

/-- Embedding of the wire envelope built in `BaseMessenger.sendMessage`
and `BaseMessenger.sendResponse`: `\x7b id, action, params, sender \x7d`. -/
structure Envelope where
  id : String
  action : String
  params : Payload
  sender : String
deriving DecidableEq, Repr

/-- One inbound `message` event: the platform-attached origin, the window
handle of the sender (`event.source`, modelled as a number), and the
payload (`event.data`). -/
structure MessageEvent where
  origin : String
  source : Nat
  data : Envelope
deriving DecidableEq, Repr

/-- Action handlers as installed in `this.actionHandlers`: an association
list from action name to a function that either returns a payload or
throws (`Except.error` is a thrown error's `.message`; an async
handler's rejection is the same thing after the `await` in
`handleAction`). -/
def Handlers : Type := List (String × (Payload → Except String Payload))

/-- Mutable state of one `BaseMessenger` instance: whether the `message`
listener installed in the constructor is still attached, the resolved
allow-list held by its `OriginValidator`, the `pendingPromises` map
(correlation id to the armed `timeoutId`), and the action handler map. -/
structure ChannelState where
  listening : Bool
  allowedOrigins : List String
  pending : List (String × Nat)
  handlers : Handlers

/-- Observable side effects of one synchronous step of the messenger:
a `postMessage(envelope, targetOrigin)` on some window handle, settling
a pending promise (resolve or reject, keyed by correlation id), arming a
timer, or `clearTimeout`. -/
inductive Effect where
  | post : Nat → Envelope → String → Effect
  | resolveP : String → Payload → Effect
  | rejectP : String → String → Effect
  | armTimer : Nat → Effect
  | clearTimer : Nat → Effect
deriving DecidableEq, Repr

/-- Embedding of the target-origin substitution in
`BaseMessenger.sendResponse` (src/shared/BaseMessenger.js line 214):
the literal origin string `"null"` is replaced by the accept-any
wildcard. -/
def responseTargetOrigin (targetOrigin : String) : String :=
  if targetOrigin == "null" then "*" else targetOrigin

/-- Embedding of `BaseMessenger.sendResponse`
(src/shared/BaseMessenger.js lines 202-221): posts back an envelope with
the original correlation id and the original action suffixed with
`"Response"`. -/
def sendResponse (target : Nat) (messageId action : String) (result : Payload)
    (targetOrigin : String) : Effect :=
  .post target
    { id := messageId, action := action ++ "Response", params := result,
      sender := "FrameBridge" }
    (responseTargetOrigin targetOrigin)

/-- Embedding of `BaseMessenger.handleAction`
(src/shared/BaseMessenger.js lines 177-191): dispatch to the registered
handler (a throwing handler propagates as `Except.error`), or return the
`\x7b error: INVALID_ACTION \x7d` descriptor when no handler exists. -/
def handleAction (handlers : Handlers) (action : String) (params : Payload) :
    Except String Payload :=
  match handlers.lookup action with
  | some h => h params
  | none => .ok (.errObj INVALID_ACTION)

/-- Embedding of `BaseMessenger.handleMessage`
(src/shared/BaseMessenger.js lines 123-166), one cooperative turn of the
inbound dispatch.  When the listener has been removed (`destroy`) the
platform no longer delivers the event, modelled by the `listening`
guard.  An envelope whose id matches a pending request resolves it; any
other envelope is dispatched as a new request and answered with
`sendResponse` (the error descriptor `\x7b error: e.message \x7d` when the
handler threw). -/
def handleMessage (st : ChannelState) (ev : MessageEvent) :
    ChannelState × List Effect :=
  if !st.listening then (st, [])
  else if !(validate st.allowedOrigins ev.origin) then (st, [])
  else if !(ev.data.sender == "FrameBridge") then (st, [])
  else
    match st.pending.lookup ev.data.id with
    | some timeoutId =>
        ({ st with pending := st.pending.filter (fun e => !(e.1 == ev.data.id)) },
         [.clearTimer timeoutId, .resolveP ev.data.id ev.data.params])
    | none =>
        let payload :=
          match handleAction st.handlers ev.data.action ev.data.params with
          | .ok v => v
          | .error e => .errObj e
        (st, [sendResponse ev.source ev.data.id ev.data.action payload ev.origin])

/-- Embedding of the timeout callback armed in `BaseMessenger.sendMessage`
(src/shared/BaseMessenger.js lines 97-101): firing deletes the pending
entry and rejects with the timeout error carrying the action name, in
one synchronous step. -/
def fireTimeout (st : ChannelState) (messageId action : String) :
    ChannelState × List Effect :=
  ({ st with pending := st.pending.filter (fun e => !(e.1 == messageId)) },
   [.rejectP messageId (MESSAGE_TIMEOUT_MSG ++ ": " ++ action)])

/-- Embedding of `BaseMessenger.sendMessage`
(src/shared/BaseMessenger.js lines 79-116).  `messageId` and `timerId`
stand for the freshly generated correlation id and the `setTimeout`
handle; `postThrows` is `some msg` when the synchronous
`targetWindow.postMessage` call throws.  On a throw the pending entry
and its timer are cleaned up before rejecting. -/
def sendMessage (st : ChannelState) (target : Nat) (action : String)
    (params : Payload) (targetOrigin : String) (messageId : String)
    (timerId : Nat) (postThrows : Option String) :
    ChannelState × List Effect :=
  let message : Envelope :=
    { id := messageId, action := action, params := params, sender := "FrameBridge" }
  match postThrows with
  | none =>
      ({ st with pending := st.pending ++ [(messageId, timerId)] },
       [.armTimer timerId, .post target message targetOrigin])
  | some err =>
      (st, [.armTimer timerId, .clearTimer timerId, .rejectP messageId err])

/-- Embedding of `BaseMessenger.destroy`
(src/shared/BaseMessenger.js lines 269-281): remove the `message`
listener, then for every pending entry clear its timer and reject its
promise with the "Messenger destroyed" error, then clear the map. -/
def destroyChannel (st : ChannelState) : ChannelState × List Effect :=
  ({ st with listening := false, pending := [] },
   st.pending.flatMap fun e =>
     [.clearTimer e.2, .rejectP e.1 "Messenger destroyed"])

/-- The window handle used for `window.parent` in the child model. -/
def PARENT_WINDOW : Nat := 0

/-- Embedding of `ChildMessenger.sendToParent`
(src/child/ChildMessenger.js lines 340-352).  When the instance is not
active (not inside an iframe) it resolves trivially without sending;
otherwise it delegates to `sendMessage` with target `window.parent`,
passing `window.location.origin` — the child's own origin, written
`selfOrigin` here — as the target origin. -/
def sendToParent (isActive : Bool) (selfOrigin : String) (st : ChannelState)
    (action : String) (params : Payload) (messageId : String) (timerId : Nat)
    (postThrows : Option String) : ChannelState × List Effect :=
  if !isActive then (st, [])
  else sendMessage st PARENT_WINDOW action params selfOrigin messageId timerId
    postThrows

/-- Modelled from the spec (claim C2's reading of §4.3): the target
origin a child *should* use for outbound sends — the configured allowed
origin when one is set, the child's same-origin value only when
unconfigured, and the accept-any wildcard only when the configuration
explicitly allows any origin.  This definition exists only to be
compared against the origin the source actually passes. -/
def specSendToParentTargetOrigin (cfg : OriginsArg) (selfOrigin : String) :
    String :=
  match cfg with
  | .null => selfOrigin
  | .malformed => selfOrigin
  | .arr [] => selfOrigin
  | .arr (o :: rest) => if (o :: rest).contains "*" then "*" else o

/-- One observable event of the announce loop in
`ChildMessenger.announce`: one attempt (one `sendToParent` of the
announce action, identified by its zero-based attempt index) or one
`sleep(ANNOUNCE_RETRY_DELAY)` between attempts. -/
inductive AnnounceEvent where
  | attempt : Nat → AnnounceEvent
  | sleep : Nat → AnnounceEvent
deriving DecidableEq, Repr

/-- Embedding of the retry loop body of `ChildMessenger.announce`
(src/child/ChildMessenger.js lines 97-133).  `outs k` is the settled
outcome of the `await this.sendToParent(ACTIONS.ANNOUNCE, ...)` of
attempt `k` (`Except.error` when it rejected, e.g. by timeout).  The
result is the trace of attempts and sleeps together with the value the
`async announce()` settles with; falling out of the `while` without
entering it returns `undefined`, which is unreachable from attempt 0. -/
def announceGo (outs : Nat → Except String Payload) : Nat → Nat →
    List AnnounceEvent × Except String Payload
  | _, 0 => ([], .ok (.value "undefined"))
  | attempt, fuel + 1 =>
      if attempt < ANNOUNCE_RETRIES then
        match outs attempt with
        | .ok v => ([.attempt attempt], .ok v)
        | .error _ =>
            if attempt + 1 < ANNOUNCE_RETRIES then
              let rest := announceGo outs (attempt + 1) fuel
              (.attempt attempt :: .sleep ANNOUNCE_RETRY_DELAY :: rest.1, rest.2)
            else
              ([.attempt attempt], .error ANNOUNCE_FAILED)
      else ([], .ok (.value "undefined"))

/-- Embedding of `ChildMessenger.announce`: run the retry loop starting
at attempt 0.  The fuel `ANNOUNCE_RETRIES` bounds the loop exactly as
the `attempt < maxRetries` guard does. -/
def announce (outs : Nat → Except String Payload) :
    List AnnounceEvent × Except String Payload :=
  announceGo outs 0 ANNOUNCE_RETRIES

/-- Embedding of the settlement of one fan-out branch in
`ParentMessenger.sendToAllChildren` (src/parent/ParentMessenger.js
lines 318-329): an awaited success stores the result, a caught failure
stores the `\x7b error: message \x7d` descriptor. -/
def settleEntry (r : Except String Payload) : Payload :=
  match r with
  | .ok v => v
  | .error e => .errObj e

/-- Embedding of `ParentMessenger.sendToAllChildren`
(src/parent/ParentMessenger.js lines 314-333).  `ids` is
`this.registry.getAllIds()`; `outcome id` is the settlement of
`await this.sendToChild(id, action, params)` for that peer — a
rejection (timeout, transport throw, or the immediate "no child window"
rejection) is `Except.error`.  The `try`/`catch` in each branch and the
`Promise.allSettled` aggregation make the aggregate a plain value in
every case: this function is total, which is the embedding of "the
aggregate promise never rejects". -/
def sendToAllChildren (ids : List String)
    (outcome : String → Except String Payload) : List (String × Payload) :=
  ids.map fun iframeId => (iframeId, settleEntry (outcome iframeId))

/-- Dimensions stored by the parent registry for one iframe. -/
structure IframeDims where
  width : Int
  height : Int
deriving DecidableEq, Repr

/-- Route stored by the parent registry for one iframe. -/
structure IframeRoute where
  path : String
  title : String
deriving DecidableEq, Repr

/-- One `IframeRegistry` record (src/parent/IframeRegistry.js): the
metadata stored at registration plus the mutable state snapshots. -/
structure IframeMeta where
  window : Nat
  origin : String
  dimensions : Option IframeDims
  route : Option IframeRoute
  registeredAt : Nat
  updatedAt : Option Nat
deriving DecidableEq, Repr

/-- The two partial updates the parent's state-report handlers pass to
`IframeRegistry.update`: `handleDimensionUpdate` sends a dimensions
patch, `handleRouteUpdate` a route patch. -/
inductive RegistryUpdate where
  | dims : IframeDims → RegistryUpdate
  | route : IframeRoute → RegistryUpdate
deriving DecidableEq, Repr

/-- Spreading the update object over the existing record
(`\x7b ...iframe, ...updates, updatedAt: Date.now() \x7d` in
`IframeRegistry.update`). -/
def applyRegistryUpdate (m : IframeMeta) (u : RegistryUpdate) (now : Nat) :
    IframeMeta :=
  match u with
  | .dims d => { m with dimensions := some d, updatedAt := some now }
  | .route r => { m with route := some r, updatedAt := some now }

/-- Embedding of `IframeRegistry.update`
(src/parent/IframeRegistry.js lines 86-101): an unknown id returns
`false` without touching the map; a known id gets the merged record
stored back under the same key. -/
def registryUpdate (reg : List (String × IframeMeta)) (iframeId : String)
    (u : RegistryUpdate) (now : Nat) : Bool × List (String × IframeMeta) :=
  match reg.lookup iframeId with
  | none => (false, reg)
  | some m =>
      (true,
       reg.map fun e =>
         if e.1 == iframeId then (e.1, applyRegistryUpdate m u now) else e)

/-- The registry effect of `ParentMessenger.handleDimensionUpdate`
(src/parent/ParentMessenger.js lines 154-208): it calls
`registry.update` with a dimensions patch. -/
def handleDimensionUpdateRegistry (reg : List (String × IframeMeta))
    (iframeId : String) (d : IframeDims) (now : Nat) :
    Bool × List (String × IframeMeta) :=
  registryUpdate reg iframeId (.dims d) now

/-- The registry effect of `ParentMessenger.handleRouteUpdate`
(src/parent/ParentMessenger.js lines 216-228): it calls
`registry.update` with a route patch. -/
def handleRouteUpdateRegistry (reg : List (String × IframeMeta))
    (iframeId : String) (r : IframeRoute) (now : Nat) :
    Bool × List (String × IframeMeta) :=
  registryUpdate reg iframeId (.route r) now

/-- The wraparound modulus of the id counter in `generateMessageId`
(src/shared/utils.js line 351). -/
def WRAP : Nat := 10000

/-- Decimal rendering of a natural number as JavaScript template
interpolation produces for `$\x7bcounter\x7d` and `$\x7btype\x7d`. -/
def natToDec (n : Nat) : List Char :=
  if n < 10 then [Nat.digitChar n]
  else natToDec (n / 10) ++ [Nat.digitChar (n % 10)]
decreasing_by exact Nat.div_lt_self (by omega) (by omega)

/-- The character list of the id string
`$\x7bcounter\x7d-$\x7btype\x7d-$\x7btimestamp\x7d-$\x7brandom\x7d`
returned by `generateMessageId` (src/shared/utils.js line 352). -/
def msgIdChars (counter ty : Nat) (timestamp random : List Char) :
    List Char :=
  natToDec counter ++ '-' :: (natToDec ty ++ '-' :: (timestamp ++ '-' :: random))

/-- Embedding of `generateMessageId` (src/shared/utils.js lines 346-353).
The function-property counter is explicit state (`counter || 0` makes it
0 on the first call); `timestamp` and `random` are the environment's
`Date.now().toString(36)` and `Math.random().toString(36).substring(2,7)`
strings of the call.  Returns the id and the stored counter
`(counter + 1) % 10000`. -/
def generateMessageId (isChildFrame : Bool) (timestamp random : List Char)
    (counter : Nat) : String × Nat :=
  let ty : Nat := if isChildFrame then 1 else 0
  (⟨msgIdChars counter ty timestamp random⟩, (counter + 1) % WRAP)

/-- The counter value before the k-th call to `generateMessageId`, when
the stored counter starts at `c0`. -/
def counterAfter (c0 : Nat) : Nat → Nat
  | 0 => c0
  | k + 1 => (counterAfter c0 k + 1) % WRAP

/-- The id produced by the k-th call to `generateMessageId` in a run
starting at counter `c0`, with environment timestamp/random streams
`ts` and `rnd`. -/
def idAt (c0 : Nat) (isChildFrame : Bool) (ts rnd : Nat → List Char)
    (k : Nat) : String :=
  (generateMessageId isChildFrame (ts k) (rnd k) (counterAfter c0 k)).1

/-- Decoder for `natToDec`: reads a digit list back as a number.  Used
only to prove that the counter component determines the counter. -/
def decVal (l : List Char) : Nat :=
  l.foldl (fun a c => a * 10 + (c.toNat - 48)) 0

/-- Recognizer for attempt events of the announce loop. -/
def isAttempt : AnnounceEvent → Bool
  | .attempt _ => true
  | .sleep _ => false

/-- Concrete fan-out outcome map for exercising `sendToAllChildren`: the
peer "b" fails with a synchronous transport throw, the others
succeed. -/
def fanOutcome (pid : String) : Except String Payload :=
  if pid == "b" then .error "transport failed" else .ok (.value pid)

/-- Variant of `fanOutcome` that differs only on peer "b". -/
def fanOutcome2 (pid : String) : Except String Payload :=
  if pid == "b" then .ok (.value "other") else .ok (.value pid)

/-- Concrete announce-outcome stream where every attempt times out. -/
def annOuts (_ : Nat) : Except String Payload :=
  .error (MESSAGE_TIMEOUT_MSG ++ ": __announce")

/-- Concrete announce-outcome stream where the first attempt succeeds. -/
def annOuts2 (_ : Nat) : Except String Payload :=
  .ok (.value "announceResponse")

theorem digitChar_toNat {d : Nat} (h : d < 10) :
    (Nat.digitChar d).toNat = 48 + d := by
  interval_cases d <;> decide

theorem digitChar_ne_dash {d : Nat} (h : d < 10) : Nat.digitChar d ≠ '-' := by
  interval_cases d <;> decide

theorem natToDec_no_dash (n : Nat) : '-' ∉ natToDec n := by
  induction n using Nat.strong_induction_on with
  | _ n ih =>
    rw [natToDec]
    split
    · next h =>
      intro hm
      simp only [List.mem_singleton] at hm
      exact digitChar_ne_dash h hm.symm
    · next h =>
      intro hm
      rcases List.mem_append.mp hm with h1 | h2
      · exact ih (n / 10) (Nat.div_lt_self (by omega) (by omega)) h1
      · simp only [List.mem_singleton] at h2
        exact digitChar_ne_dash (Nat.mod_lt _ (by omega)) h2.symm

theorem decVal_append (l : List Char) (c : Char) :
    decVal (l ++ [c]) = decVal l * 10 + (c.toNat - 48) := by
  unfold decVal
  rw [List.foldl_append]
  rfl

theorem decVal_natToDec (n : Nat) : decVal (natToDec n) = n := by
  induction n using Nat.strong_induction_on with
  | _ n ih =>
    rw [natToDec]
    split
    · next h =>
      simp only [decVal, List.foldl_cons, List.foldl_nil]
      rw [digitChar_toNat h]
      omega
    · next h =>
      rw [decVal_append, ih (n / 10) (Nat.div_lt_self (by omega) (by omega)),
        digitChar_toNat (Nat.mod_lt _ (by omega))]
      omega

theorem append_sep_inj :
    ∀ (l1 l2 r1 r2 : List Char), '-' ∉ l1 → '-' ∉ l2 →
      l1 ++ '-' :: r1 = l2 ++ '-' :: r2 → l1 = l2 ∧ r1 = r2 := by
  intro l1
  induction l1 with
  | nil =>
    intro l2 r1 r2 _ h2 h
    cases l2 with
    | nil => simpa using h
    | cons b bs =>
      simp only [List.nil_append, List.cons_append, List.cons.injEq] at h
      exact absurd (h.1 ▸ List.mem_cons_self b bs) (h.1 ▸ h2)
  | cons a as ih =>
    intro l2 r1 r2 h1 h2 h
    cases l2 with
    | nil =>
      simp only [List.cons_append, List.nil_append, List.cons.injEq] at h
      exact absurd (h.1 ▸ List.mem_cons_self a as) (h.1 ▸ h1)
    | cons b bs =>
      simp only [List.cons_append, List.cons.injEq] at h
      obtain ⟨hab, hrest⟩ := h
      have h1b : '-' ∉ as := fun hm => h1 (List.mem_cons_of_mem a hm)
      have h2b : '-' ∉ bs := fun hm => h2 (List.mem_cons_of_mem b hm)
      obtain ⟨he, hr⟩ := ih bs r1 r2 h1b h2b hrest
      exact ⟨by rw [hab, he], hr⟩

theorem msgIdChars_counter_inj {c1 c2 ty1 ty2 : Nat}
    {t1 t2 r1 r2 : List Char}
    (h : msgIdChars c1 ty1 t1 r1 = msgIdChars c2 ty2 t2 r2) : c1 = c2 := by
  unfold msgIdChars at h
  have hsep :=
    append_sep_inj _ _ _ _ (natToDec_no_dash c1) (natToDec_no_dash c2) h
  have h2 := congrArg decVal hsep.1
  rwa [decVal_natToDec, decVal_natToDec] at h2

theorem counterAfter_eq (c0 : Nat) (hc0 : c0 < WRAP) (k : Nat) :
    counterAfter c0 k = (c0 + k) % WRAP := by
  induction k with
  | zero => simp [counterAfter, Nat.mod_eq_of_lt hc0]
  | succ k ih =>
    show (counterAfter c0 k + 1) % WRAP = (c0 + (k + 1)) % WRAP
    rw [ih]
    unfold WRAP at *
    omega

/-- Claim C1 (code bug): after the request "m1" has been cancelled by its
timeout, an inbound response envelope for "m1" (valid origin, protocol
sender marker) is NOT silently ignored: `handleMessage` falls through to
the new-request path, finds no handler for the reply-suffixed action,
and transmits a reply envelope carrying the unrecognized-action error
descriptor back to the sender.  The state is unchanged and no promise is
settled, but a reply envelope is posted, contradicting the claim that
nothing is transmitted back. -/
theorem handleMessage_stale_response_transmits_reply :
    handleMessage
      ((fireTimeout
        { listening := true, allowedOrigins := ["https://child.example"],
          pending := [("m1", 7)], handlers := [] } "m1" "foo").1)
      { origin := "https://child.example", source := 3,
        data := { id := "m1", action := "fooResponse",
                  params := .value "late", sender := "FrameBridge" } } =
    ((fireTimeout
        { listening := true, allowedOrigins := ["https://child.example"],
          pending := [("m1", 7)], handlers := [] } "m1" "foo").1,
     [.post 3
        { id := "m1", action := "fooResponseResponse",
          params := .errObj INVALID_ACTION, sender := "FrameBridge" }
        "https://child.example"]) := by
  rfl

/-- Claim C2 (code bug): a child constructed with the single cross-origin
entry `["https://parent.example.com"]` in `allowedOrigins` posts to the
parent with the child's own origin as the `postMessage` target origin,
not the configured one: `sendToParent` passes `window.location.origin`
unconditionally, while the spec-modelled target-origin policy yields the
configured parent origin. -/
theorem sendToParent_ignores_trust_configuration :
    sendToParent true "https://child.example.com"
      { listening := true,
        allowedOrigins :=
          resolveAllowedOrigins (.arr ["https://parent.example.com"])
            "https://child.example.com",
        pending := [], handlers := [] }
      "updateRoute" (.value "route") "id1" 5 none =
    ({ listening := true,
       allowedOrigins :=
         resolveAllowedOrigins (.arr ["https://parent.example.com"])
           "https://child.example.com",
       pending := [("id1", 5)], handlers := [] },
     [.armTimer 5,
      .post PARENT_WINDOW
        { id := "id1", action := "updateRoute", params := .value "route",
          sender := "FrameBridge" }
        "https://child.example.com"]) ∧
    specSendToParentTargetOrigin (.arr ["https://parent.example.com"])
      "https://child.example.com" = "https://parent.example.com" ∧
    "https://child.example.com" ≠ "https://parent.example.com" := by
  refine ⟨rfl, rfl, by decide⟩

/-- Claim C4: with an empty or malformed explicit allow-list the
validator degrades to same-origin-only — `validate` accepts exactly the
channel's own origin (for any real origin value, i.e. one not containing
a wildcard character), never accept-any. -/
theorem validate_fail_closed (cfg : OriginsArg) (selfOrigin origin : String)
    (hcfg : cfg = .arr [] ∨ cfg = .malformed)
    (hstar : '*' ∉ selfOrigin.toList) :
    (validate (resolveAllowedOrigins cfg selfOrigin) origin = true ↔
      origin = selfOrigin) := by
  have hres : resolveAllowedOrigins cfg selfOrigin = [selfOrigin] := by
    rcases hcfg with h | h <;> subst h <;> rfl
  have hself : selfOrigin ≠ "*" := by
    intro h
    subst h
    exact hstar (by decide)
  have hnostar : selfOrigin.toList.contains '*' = false := by
    show List.elem '*' selfOrigin.toList = false
    rw [List.elem_eq_mem, decide_eq_false_iff_not]
    exact hstar
  rw [hres]
  unfold validate
  have hw : ([selfOrigin].contains "*") = false := by
    show List.elem "*" [selfOrigin] = false
    rw [List.elem_eq_mem]
    simp [Ne.symm hself]
  rw [hw]
  simp only [Bool.false_eq_true, if_false, List.any_cons, List.any_nil,
    Bool.or_false, hnostar]
  constructor
  · intro h
    by_cases he : selfOrigin == origin
    · exact (eq_of_beq he).symm
    · simp [he] at h
  · intro h
    subst h
    simp

/-- Claim C5: the wildcard pattern `https://*.example.com` is compiled
into a matcher anchored at both ends: it accepts one or more subdomain
labels and rejects the bare domain and substring lookalikes. -/
theorem validate_wildcard_anchored :
    validate ["https://*.example.com"] "https://a.example.com" = true ∧
    validate ["https://*.example.com"] "https://a.b.example.com" = true ∧
    validate ["https://*.example.com"] "https://example.com" = false ∧
    validate ["https://*.example.com"] "https://evilexample.com" = false := by
  refine ⟨by decide, by decide, by decide, by decide⟩

theorem destroy_reject_count (l : List (String × Nat)) (pid : String) :
    ((l.flatMap fun e =>
        [Effect.clearTimer e.2,
         Effect.rejectP e.1 "Messenger destroyed"]).count
      (Effect.rejectP pid "Messenger destroyed")) =
      (l.map Prod.fst).count pid := by
  induction l with
  | nil => rfl
  | cons a as ih =>
    simp [List.flatMap_cons, List.count_cons, List.count_append, ih]

/-- Claim C7: one `destroy()` call on a channel with pending requests
rejects every previously pending promise exactly once with the
"Messenger destroyed" error, cancels every pending timer, empties the
pending-request mapping, and any inbound message arriving afterwards is
ignored without mutating the cleared state. -/
theorem destroyChannel_c7 (st : ChannelState) (p : String × Nat)
    (ev : MessageEvent) (hnodup : (st.pending.map Prod.fst).Nodup)
    (hp : p ∈ st.pending) :
    (destroyChannel st).2.count (Effect.rejectP p.1 "Messenger destroyed")
        = 1 ∧
    Effect.clearTimer p.2 ∈ (destroyChannel st).2 ∧
    (destroyChannel st).1.pending = [] ∧
    handleMessage (destroyChannel st).1 ev = ((destroyChannel st).1, []) := by
  refine ⟨?_, ?_, rfl, rfl⟩
  · show ((st.pending.flatMap fun e =>
        [Effect.clearTimer e.2,
         Effect.rejectP e.1 "Messenger destroyed"]).count
      (Effect.rejectP p.1 "Messenger destroyed")) = 1
    rw [destroy_reject_count]
    exact List.count_eq_one_of_mem hnodup (List.mem_map_of_mem Prod.fst hp)
  · exact List.mem_flatMap.mpr ⟨p, hp, by simp⟩

/-- Witness for claim C7: destroying a concrete channel with two pending
requests rejects "a" exactly once, clears its timer, empties the map and
makes a subsequent inbound message a no-op. -/
theorem destroyChannel_c7_witness :
    (destroyChannel
      { listening := true, allowedOrigins := ["https://o.test"],
        pending := [("a", 1), ("b", 2)], handlers := [] }).2.count
        (Effect.rejectP "a" "Messenger destroyed") = 1 ∧
    Effect.clearTimer 1 ∈ (destroyChannel
      { listening := true, allowedOrigins := ["https://o.test"],
        pending := [("a", 1), ("b", 2)], handlers := [] }).2 ∧
    (destroyChannel
      { listening := true, allowedOrigins := ["https://o.test"],
        pending := [("a", 1), ("b", 2)], handlers := [] }).1.pending = [] ∧
    handleMessage
      (destroyChannel
        { listening := true, allowedOrigins := ["https://o.test"],
          pending := [("a", 1), ("b", 2)], handlers := [] }).1
      { origin := "https://o.test", source := 4,
        data := { id := "a", action := "late", params := .value "v",
                  sender := "FrameBridge" } } =
      ((destroyChannel
        { listening := true, allowedOrigins := ["https://o.test"],
          pending := [("a", 1), ("b", 2)], handlers := [] }).1, []) :=
  destroyChannel_c7
    { listening := true, allowedOrigins := ["https://o.test"],
      pending := [("a", 1), ("b", 2)], handlers := [] }
    ("a", 1)
    { origin := "https://o.test", source := 4,
      data := { id := "a", action := "late", params := .value "v",
                sender := "FrameBridge" } }
    (by decide) (by decide)

/-- Claim C3 (amended): within any window of at most 10000 consecutive
calls, the ids generated by `generateMessageId` are pairwise distinct —
the monotonic counter alone guarantees it, regardless of the time and
random components (in particular within the same millisecond).  Once the
counter has wrapped (more than 10000 ids), distinctness additionally
requires the time or random component to differ, so collision is not
impossible in general (see the counterexample). -/
theorem generateMessageId_distinct_within_wrap (c0 : Nat) (hc0 : c0 < WRAP)
    (isChildFrame : Bool) (ts rnd : Nat → List Char) (N i j : Nat)
    (hN : N ≤ WRAP) (hi : i < N) (hj : j < N) (hij : i ≠ j) :
    idAt c0 isChildFrame ts rnd i ≠ idAt c0 isChildFrame ts rnd j := by
  intro heq
  have hchars : msgIdChars (counterAfter c0 i) (if isChildFrame then 1 else 0)
      (ts i) (rnd i) =
      msgIdChars (counterAfter c0 j) (if isChildFrame then 1 else 0)
      (ts j) (rnd j) := by
    have := congrArg String.data heq
    simpa [idAt, generateMessageId] using this
  have hcnt := msgIdChars_counter_inj hchars
  rw [counterAfter_eq c0 hc0 i, counterAfter_eq c0 hc0 j] at hcnt
  unfold WRAP at hc0 hN hcnt
  omega

/-- Witness for claim C3's amended theorem: two consecutive ids issued
with identical timestamp and random components are distinct. -/
theorem generateMessageId_distinct_within_wrap_witness :
    0 < WRAP ∧ 2 ≤ WRAP ∧
    idAt 0 false (fun _ => ['t']) (fun _ => ['r']) 0 ≠
      idAt 0 false (fun _ => ['t']) (fun _ => ['r']) 1 :=
  ⟨by norm_num [WRAP], by norm_num [WRAP],
   generateMessageId_distinct_within_wrap 0 (by norm_num [WRAP]) false
     (fun _ => ['t']) (fun _ => ['r']) 2 0 1 (by norm_num [WRAP])
     (by norm_num) (by norm_num) (by norm_num)⟩

/-- Counterexample for claim C3 as stated: in a run of 10001 calls whose
time component stays in the same instant and whose random component
repeats, the 0th and the 10000th generated ids are equal — the counter
has wrapped and nothing else distinguishes them, so the ids of a long
enough sequence of sends are not pairwise distinct. -/
theorem generateMessageId_wrap_collision :
    idAt 0 false (fun _ => ['t']) (fun _ => ['r']) 0 =
      idAt 0 false (fun _ => ['t']) (fun _ => ['r']) 10000 := by
  have h0 : counterAfter 0 0 = 0 := rfl
  have h1 : counterAfter 0 10000 = 0 := by
    rw [counterAfter_eq 0 (by norm_num [WRAP]) 10000]
    norm_num [WRAP]
  simp [idAt, h0, h1]

/-- Claim C6: an inbound request with no registered handler for its
action, or whose handler throws, never escapes the message-handling
loop: `handleMessage` leaves the state untouched and transmits back a
response envelope with the same correlation id whose payload is the
error descriptor; and on the original sender's channel an inbound
response matching a pending request always resolves (never rejects) the
promise with the carried payload. -/
theorem handleMessage_error_descriptor_response
    (st : ChannelState) (ev : MessageEvent)
    (hf : Payload → Except String Payload) (msg : String)
    (st2 : ChannelState) (resp : MessageEvent) (tid : Nat)
    (hlisten : st.listening = true)
    (horig : validate st.allowedOrigins ev.origin = true)
    (hsender : ev.data.sender = "FrameBridge")
    (hpend : st.pending.lookup ev.data.id = none)
    (herr : (st.handlers.lookup ev.data.action = none ∧ msg = INVALID_ACTION) ∨
      (st.handlers.lookup ev.data.action = some hf ∧
        hf ev.data.params = .error msg))
    (hlisten2 : st2.listening = true)
    (horig2 : validate st2.allowedOrigins resp.origin = true)
    (hsender2 : resp.data.sender = "FrameBridge")
    (hpend2 : st2.pending.lookup resp.data.id = some tid) :
    handleMessage st ev =
      (st, [.post ev.source
        { id := ev.data.id, action := ev.data.action ++ "Response",
          params := .errObj msg, sender := "FrameBridge" }
        (responseTargetOrigin ev.origin)]) ∧
    handleMessage st2 resp =
      ({ st2 with
          pending := st2.pending.filter (fun e => !(e.1 == resp.data.id)) },
       [.clearTimer tid, .resolveP resp.data.id resp.data.params]) := by
  constructor
  · rcases herr with ⟨hnone, hmsg⟩ | ⟨hsome, hthrow⟩
    · simp [handleMessage, hlisten, horig, hsender, hpend, handleAction,
        sendResponse, hnone, hmsg]
    · simp [handleMessage, hlisten, horig, hsender, hpend, handleAction,
        sendResponse, hsome, hthrow]
  · simp [handleMessage, hlisten2, horig2, hsender2, hpend2]

/-- Witness for claim C6: a concrete request for the unregistered action
"doesNotExist" produces the error-descriptor response envelope, and the
sender's channel resolves its pending promise with that descriptor. -/
theorem handleMessage_error_descriptor_response_witness :
    handleMessage
      { listening := true, allowedOrigins := ["https://c.test"],
        pending := [], handlers := [] }
      { origin := "https://c.test", source := 2,
        data := { id := "q1", action := "doesNotExist",
                  params := .value "x", sender := "FrameBridge" } } =
      ({ listening := true, allowedOrigins := ["https://c.test"],
         pending := [], handlers := [] },
       [.post 2
          { id := "q1", action := "doesNotExistResponse",
            params := .errObj INVALID_ACTION, sender := "FrameBridge" }
          (responseTargetOrigin "https://c.test")]) ∧
    handleMessage
      { listening := true, allowedOrigins := ["https://p.test"],
        pending := [("q1", 9)], handlers := [] }
      { origin := "https://p.test", source := 5,
        data := { id := "q1", action := "doesNotExistResponse",
                  params := .errObj INVALID_ACTION,
                  sender := "FrameBridge" } } =
      ({ listening := true, allowedOrigins := ["https://p.test"],
         pending := [("q1", 9)].filter (fun e => !(e.1 == "q1")),
         handlers := [] },
       [.clearTimer 9, .resolveP "q1" (.errObj INVALID_ACTION)]) :=
  handleMessage_error_descriptor_response
    { listening := true, allowedOrigins := ["https://c.test"],
      pending := [], handlers := [] }
    { origin := "https://c.test", source := 2,
      data := { id := "q1", action := "doesNotExist",
                params := .value "x", sender := "FrameBridge" } }
    (fun _ => .ok (.value "unused")) INVALID_ACTION
    { listening := true, allowedOrigins := ["https://p.test"],
      pending := [("q1", 9)], handlers := [] }
    { origin := "https://p.test", source := 5,
      data := { id := "q1", action := "doesNotExistResponse",
                params := .errObj INVALID_ACTION, sender := "FrameBridge" } }
    9 rfl (by decide) rfl rfl (Or.inl ⟨rfl, rfl⟩) rfl (by decide) rfl rfl

/-- Claim C8: `sendToAllChildren` fans out to exactly the registered
peers, each peer's entry holds that peer's own settled result (the error
descriptor on failure), the aggregate is a plain value (the function is
total: it never rejects), and changing one peer's outcome leaves every
other peer's entry untouched. -/
theorem sendToAllChildren_c8 (ids : List String)
    (outcome outcome2 : String → Except String Payload) (i0 id0 : String)
    (hmem : id0 ∈ ids)
    (hagree : ∀ pid, pid ≠ i0 → outcome pid = outcome2 pid) :
    (sendToAllChildren ids outcome).map Prod.fst = ids ∧
    (id0, settleEntry (outcome id0)) ∈ sendToAllChildren ids outcome ∧
    (sendToAllChildren ids outcome).filter (fun e => !(e.1 == i0)) =
      (sendToAllChildren ids outcome2).filter (fun e => !(e.1 == i0)) := by
  refine ⟨?_, ?_, ?_⟩
  · clear hmem
    induction ids with
    | nil => rfl
    | cons a as ih => simpa [sendToAllChildren] using ih
  · exact List.mem_map_of_mem (fun pid => (pid, settleEntry (outcome pid))) hmem
  · clear hmem
    induction ids with
    | nil => rfl
    | cons a as ih =>
      simp only [sendToAllChildren, List.map_cons, List.filter_cons]
      by_cases ha : a = i0
      · subst ha
        simp only [beq_self_eq_true, Bool.not_true, Bool.false_eq_true,
          if_false]
        exact ih
      · have hbeq : (a == i0) = false := beq_eq_false_iff_ne.mpr ha
        rw [hagree a ha]
        simp only [hbeq, Bool.not_false, if_true, List.cons.injEq, true_and]
        exact ih

/-- Witness for claim C8: broadcasting to the three peers "a", "b", "c"
where "b"'s transport throws yields entries for all three peers, "a"'s
own success entry, and the same non-"b" entries as a run where "b"
behaves differently. -/
theorem sendToAllChildren_c8_witness :
    (sendToAllChildren ["a", "b", "c"] fanOutcome).map Prod.fst
      = ["a", "b", "c"] ∧
    ("a", settleEntry (fanOutcome "a")) ∈
      sendToAllChildren ["a", "b", "c"] fanOutcome ∧
    (sendToAllChildren ["a", "b", "c"] fanOutcome).filter
        (fun e => !(e.1 == "b")) =
      (sendToAllChildren ["a", "b", "c"] fanOutcome2).filter
        (fun e => !(e.1 == "b")) :=
  sendToAllChildren_c8 ["a", "b", "c"] fanOutcome fanOutcome2 "b" "a"
    (by decide)
    (fun pid hpid => by
      have h : (pid == "b") = false := beq_eq_false_iff_ne.mpr hpid
      simp [fanOutcome, fanOutcome2, h])

/-- Claim C9: when every announce attempt fails, the child makes exactly
`ANNOUNCE_RETRIES` attempts with one fixed `ANNOUNCE_RETRY_DELAY` sleep
between consecutive attempts and then surfaces the distinct
"announce failed" error (different from the single-message timeout
error) as the settled result; and in every run the number of attempts is
bounded by `ANNOUNCE_RETRIES`. -/
theorem announce_c9 (outs outs2 : Nat → Except String Payload)
    (e0 e1 e2 : String) (h0 : outs 0 = .error e0) (h1 : outs 1 = .error e1)
    (h2 : outs 2 = .error e2) :
    announce outs =
      ([.attempt 0, .sleep ANNOUNCE_RETRY_DELAY, .attempt 1,
        .sleep ANNOUNCE_RETRY_DELAY, .attempt 2], .error ANNOUNCE_FAILED) ∧
    ANNOUNCE_FAILED ≠ MESSAGE_TIMEOUT_MSG ∧
    (announce outs2).1.countP isAttempt ≤ ANNOUNCE_RETRIES := by
  refine ⟨?_, by decide, ?_⟩
  · simp [announce, announceGo, h0, h1, h2, ANNOUNCE_RETRIES,
      ANNOUNCE_RETRY_DELAY]
  · cases ho0 : outs2 0 with
    | ok v =>
      simp [announce, announceGo, ho0, ANNOUNCE_RETRIES, isAttempt]
    | error e =>
      cases ho1 : outs2 1 with
      | ok v =>
        simp [announce, announceGo, ho0, ho1, ANNOUNCE_RETRIES, isAttempt]
      | error e1b =>
        cases ho2 : outs2 2 with
        | ok v =>
          simp [announce, announceGo, ho0, ho1, ho2, ANNOUNCE_RETRIES,
            isAttempt]
        | error e2b =>
          simp [announce, announceGo, ho0, ho1, ho2, ANNOUNCE_RETRIES,
            isAttempt]

/-- Witness for claim C9: with every attempt timing out, announce makes
exactly three attempts separated by two fixed delays and settles with
the "announce failed" error; a succeeding run stays within the attempt
bound. -/
theorem announce_c9_witness :
    announce annOuts =
      ([.attempt 0, .sleep ANNOUNCE_RETRY_DELAY, .attempt 1,
        .sleep ANNOUNCE_RETRY_DELAY, .attempt 2], .error ANNOUNCE_FAILED) ∧
    ANNOUNCE_FAILED ≠ MESSAGE_TIMEOUT_MSG ∧
    (announce annOuts2).1.countP isAttempt ≤ ANNOUNCE_RETRIES :=
  announce_c9 annOuts annOuts2 _ _ _ rfl rfl rfl

/-- Witness for claim C4: with the empty allow-list, the channel's own
origin validates and a foreign origin does not. -/
theorem validate_fail_closed_witness :
    (validate (resolveAllowedOrigins (.arr []) "https://app.test")
        "https://app.test" = true ↔
      "https://app.test" = "https://app.test") ∧
    (validate (resolveAllowedOrigins (.arr []) "https://app.test")
        "https://evil.test" = true ↔
      "https://evil.test" = "https://app.test") :=
  ⟨validate_fail_closed _ _ _ (Or.inl rfl) (by decide),
   validate_fail_closed _ _ _ (Or.inl rfl) (by decide)⟩

/-- Claim C10: a state report (dimension or route update) whose iframe id
is not registered makes `IframeRegistry.update` return `false` and
leaves the registry mapping completely unchanged, for both the
dimension-update and route-update handlers. -/
theorem registry_update_unregistered_unchanged
    (reg : List (String × IframeMeta)) (iframeId : String) (d : IframeDims)
    (r : IframeRoute) (now : Nat) (h : reg.lookup iframeId = none) :
    handleDimensionUpdateRegistry reg iframeId d now = (false, reg) ∧
    handleRouteUpdateRegistry reg iframeId r now = (false, reg) := by
  unfold handleDimensionUpdateRegistry handleRouteUpdateRegistry registryUpdate
  rw [h]
  exact ⟨rfl, rfl⟩

/-- Witness for claim C10: a dimension report and a route report for the
unannounced id "f2" leave a registry holding only "f1" unchanged and
report failure. -/
theorem registry_update_unregistered_unchanged_witness :
    handleDimensionUpdateRegistry
      [("f1", { window := 1, origin := "https://c.test", dimensions := none,
                route := none, registeredAt := 0, updatedAt := none })]
      "f2" { width := 100, height := 200 } 5 =
      (false,
       [("f1", { window := 1, origin := "https://c.test", dimensions := none,
                 route := none, registeredAt := 0, updatedAt := none })]) ∧
    handleRouteUpdateRegistry
      [("f1", { window := 1, origin := "https://c.test", dimensions := none,
                route := none, registeredAt := 0, updatedAt := none })]
      "f2" { path := "/p", title := "T" } 5 =
      (false,
       [("f1", { window := 1, origin := "https://c.test", dimensions := none,
                 route := none, registeredAt := 0, updatedAt := none })]) :=
  registry_update_unregistered_unchanged
    [("f1", { window := 1, origin := "https://c.test", dimensions := none,
              route := none, registeredAt := 0, updatedAt := none })]
    "f2" { width := 100, height := 200 } { path := "/p", title := "T" } 5 rfl
